import Mathlib

/-!
Verification of the gocar template-resolution and project-generation engine.

The Go sources embedded here are:
- `internal/project/creator.go` (the `Creator` type, scaffold builders,
  template augmentation and project-config synthesis),
- `internal/config` (the global template registry: `GlobalConfig`,
  `LoadGlobalConfig`, `DefaultGlobalConfig`, `GetTemplate`),
- the `new` command's mode resolution (`NewCommand.Run`).

Modelling conventions:
- File-system paths are segment lists (`filepath.Join a b` becomes list
  append; a relative path literal coming from a template is split on `/`).
- Side effects are recorded as an explicit event trace.  The I/O primitives
  (`os.MkdirAll`, `util.WriteFile`, `util.RunCommandSilent`) are modelled as
  succeeding; the outcome of the single up-front `os.Stat` existence check and
  the outcome of `util.InitGit` are explicit parameters, since those are the
  only outcomes the code branches on.
- Go maps are modelled as association lists carrying an explicit iteration
  order; Go leaves that order unspecified, so theorems about map iteration
  quantify over the order where it matters.
-/

/-- Outcome of an `os.Stat` call, as discriminated by the Go code: the stat
succeeded (`ok`), failed with "does not exist" (`notExist`), or failed with
any other error (`otherError`).  The code only ever tests `os.IsNotExist`. -/
inductive StatResult where
  | ok
  | notExist
  | otherError
deriving DecidableEq

/-- A file-system path as a list of segments (`filepath.Join` is append). -/
abbrev FsPath := List String

/-- One observable side effect of project generation: directory creation,
file write, the silenced external command (`go mod init`), or the git
initialization attempt (whose recorded Bool is its success/failure). -/
inductive Event where
  | mkdirAll (p : FsPath)
  | writeFile (p : FsPath) (content : String)
  | runCommandSilent (dir : FsPath) (cmd : String) (args : List String)
  | initGit (dir : FsPath) (ok : Bool)
deriving DecidableEq

/-- Splits a character list on `/`, accumulating the current segment in
reverse. -/
def splitPathAux : List Char → List Char → List String
  | [], acc => [String.mk acc.reverse]
  | c :: rest, acc =>
    if c = '/' then String.mk acc.reverse :: splitPathAux rest []
    else splitPathAux rest (c :: acc)

/-- Splits a template-declared relative path on `/` into segments, so that it
can be appended under the project root the way `filepath.Join` does. -/
def splitPath (s : String) : List String := splitPathAux s.toList []

/-- Embeds `config.TemplateConfig` (internal/config/global.go): a named
template's description, base mode, extra directories, extra files
(path → content) and extra commands (name → shell string).  The two Go maps
are association lists whose order stands for one iteration order.  The unused
nested build/run sub-tables are omitted: generation never reads them. -/
structure TemplateConfig where
  description : String
  mode : String
  dirs : List String
  files : List (String × String)
  commands : List (String × String)
deriving DecidableEq

/-- Embeds `config.DefaultsConfig`: default author and license. -/
structure DefaultsConfig where
  author : String
  license : String
deriving DecidableEq

/-- Embeds `config.GlobalConfig`: the template registry (name → template,
keys unique) plus the defaults record. -/
structure GlobalConfig where
  templates : List (String × TemplateConfig)
  defaults : DefaultsConfig
deriving DecidableEq

/-- Embeds `GlobalConfig.GetTemplate`: exact, case-sensitive lookup of a
template by name. -/
def GlobalConfig.getTemplate (c : GlobalConfig) (name : String) : Option TemplateConfig :=
  c.templates.lookup name

/-- Embeds `config.DefaultGlobalConfig`: no templates, empty author,
license `MIT`. -/
def DefaultGlobalConfig : GlobalConfig :=
  { templates := [], defaults := { author := "", license := "MIT" } }

/-- Embeds `config.LoadGlobalConfig`.  `homeDir` is the result of
`os.UserHomeDir` (`none` = error), `stat` the result of `os.Stat` on the
well-known config path, and `decoded` the outcome of `toml.DecodeFile`
(already wrapped with the "failed to parse" context) for the case where the
file is read.  When the stat error is "does not exist" the built-in default
configuration is returned with no error. -/
def LoadGlobalConfig (homeDir : Option String) (stat : StatResult)
    (decoded : Except String GlobalConfig) : Except String GlobalConfig :=
  match homeDir with
  | none => .error "failed to get home directory"
  | some _ =>
    match stat with
    | .notExist => .ok DefaultGlobalConfig
    | _ => decoded

/-- Embeds `project.Creator` (creator.go): project name, mode string, and the
optional template the project is created from. -/
structure Creator where
  name : String
  mode : String
  template : Option TemplateConfig
deriving DecidableEq

/-- Embeds `project.NewCreator`: a creator for a built-in mode, no template. -/
def NewCreator (name mode : String) : Creator :=
  { name := name, mode := mode, template := none }

/-- Embeds `project.NewCreatorWithTemplate`: the creator's mode is the
template's declared base mode, and the template is attached. -/
def NewCreatorWithTemplate (name : String) (tpl : TemplateConfig) : Creator :=
  { name := name, mode := tpl.mode, template := some tpl }

/-- Embeds the mode dispatch of `NewCommand.Run` (the `new` command): a token
equal to `simple` or `project` yields a built-in-mode creator without ever
consulting the registry; otherwise the registry is loaded (`loadResult`, with
a load failure aborting) and the token is looked up as a template name,
unknown names failing with the unknown-mode diagnostic. -/
def resolveCreator (appName mode : String)
    (loadResult : Except String GlobalConfig) : Except String Creator :=
  if mode = "simple" ∨ mode = "project" then
    .ok (NewCreator appName mode)
  else
    match loadResult with
    | .error e => .error e
    | .ok cfg =>
      match cfg.getTemplate mode with
      | some tpl => .ok (NewCreatorWithTemplate appName tpl)
      | none => .error ("Unknown mode or template \x27" ++ mode ++ "\x27")

/-- Modelled from the spec: `config.ConfigFileName`, the fixed project-local
configuration filename.  Its defining Go file is not among the sources; the
creator's comments and the CLI help text name it `.gocar.toml`. -/
def ConfigFileName : String := ".gocar.toml"

/-- Modelled from the spec: content of the simple-mode entry-point source
file, templated with the project name (`SimpleMainTemplate`; its defining Go
file is not among the sources).  The claims constrain only the path it is
written to, never this text. -/
def SimpleMainTemplate (name : String) : String :=
  "package main for " ++ name

/-- Modelled from the spec: content of the project-mode entry-point source
file under `cmd/server/` (`ProjectMainTemplate`; defining file absent from
the sources, exact text immaterial to the claims). -/
def ProjectMainTemplate (name : String) : String :=
  "package main (server) for " ++ name

/-- Modelled from the spec: README content for simple mode
(`SimpleReadmeTemplate`; defining file absent, text immaterial). -/
def SimpleReadmeTemplate (name : String) : String :=
  "readme for " ++ name

/-- Modelled from the spec: README content for project mode
(`ProjectReadmeTemplate`; defining file absent, text immaterial). -/
def ProjectReadmeTemplate (name : String) : String :=
  "project readme for " ++ name

/-- Modelled from the spec: gitignore content (`GitignoreTemplate`; defining
file absent, text immaterial). -/
def GitignoreTemplate (name : String) : String :=
  "gitignore for " ++ name

/-- Embeds `Creator.createSimpleProject` (creator.go:67-101): root and `bin/`
directories, `go mod init` against the root, then `main.go`, `README.md` and
`.gitignore`, in that order. -/
def createSimpleProject (name : String) : List Event :=
  [ .mkdirAll [name],
    .mkdirAll [name, "bin"],
    .runCommandSilent [name] "go" ["mod", "init", name],
    .writeFile [name, "main.go"] (SimpleMainTemplate name),
    .writeFile [name, "README.md"] (SimpleReadmeTemplate name),
    .writeFile [name, ".gitignore"] (GitignoreTemplate name) ]

/-- Embeds `Creator.createProjectMode` (creator.go:104-154): the six
directories, `go mod init`, the entry point under `cmd/server/`, the three
`.gitkeep` placeholders, then `README.md` and `.gitignore`, in order. -/
def createProjectMode (name : String) : List Event :=
  [ .mkdirAll [name],
    .mkdirAll [name, "cmd", "server"],
    .mkdirAll [name, "internal"],
    .mkdirAll [name, "pkg"],
    .mkdirAll [name, "test"],
    .mkdirAll [name, "bin"],
    .runCommandSilent [name] "go" ["mod", "init", name],
    .writeFile [name, "cmd", "server", "main.go"] (ProjectMainTemplate name),
    .writeFile [name, "internal", ".gitkeep"] "",
    .writeFile [name, "pkg", ".gitkeep"] "",
    .writeFile [name, "test", ".gitkeep"] "",
    .writeFile [name, "README.md"] (ProjectReadmeTemplate name),
    .writeFile [name, ".gitignore"] (GitignoreTemplate name) ]

/-- Embeds the built-in command map literal of `Creator.createTemplateConfig`
(creator.go:205-209), in source order as one iteration order. -/
def builtinCommands : List (String × String) :=
  [ ("vet", "go vet ./..."),
    ("fmt", "go fmt ./..."),
    ("test", "go test -v ./...") ]

/-- Association-list update with Go-map semantics: replace the binding of an
existing key in place, otherwise append the new binding.  This is
`commands[name] = cmd` of creator.go:212-214 on the association-list model. -/
def insertCmd : List (String × String) → String → String → List (String × String)
  | [], k, v => [(k, v)]
  | p :: rest, k, v => if p.1 = k then (k, v) :: rest else p :: insertCmd rest k v

/-- Embeds the merge loop of `Creator.createTemplateConfig` (creator.go:
204-214): start from the built-in `{vet, fmt, test}` map and write every
template-declared command over it. -/
def mergeCommands (tplCommands : List (String × String)) : List (String × String) :=
  tplCommands.foldl (fun acc p => insertCmd acc p.1 p.2) builtinCommands

/-- Go `%q` quoting of a shell-command string as used by
`fmt.Sprintf("%s = %q\n", ...)` (creator.go:232): quote, escaping
backslashes, double quotes, newlines and tabs; other characters verbatim. -/
def goQuoteChar (c : Char) : String :=
  if c = '\\' then "\\\\"
  else if c = '\"' then "\\\""
  else if c = '\n' then "\\n"
  else if c = '\t' then "\\t"
  else String.singleton c

/-- Go `%q` rendering of a full string (creator.go:232). -/
def goQuote (s : String) : String :=
  "\"" ++ String.join (s.toList.map goQuoteChar) ++ "\""

/-- One line of the `[commands]` block: `name = "command"` plus newline
(creator.go:232). -/
def cmdLine (p : String × String) : String :=
  p.1 ++ " = " ++ goQuote p.2 ++ "\n"

/-- Embeds the command-section accumulation loop of
`Creator.generateTemplateConfigContent` (creator.go:230-233) for a given
iteration order of the merged command map. -/
def cmdSection (commands : List (String × String)) : String :=
  String.join (commands.map cmdLine)

/-- Embeds the build-entry selection of `generateTemplateConfigContent`
(creator.go:224-227): `cmd/server` for mode `project`, else `.`. -/
def buildEntry (mode : String) : String :=
  if mode = "project" then "cmd/server" else "."

/-- The directory a build-entry value denotes, relative to the
project root: `.` is the root itself, any other entry is a relative path
under it. -/
def entryDirPath (name entry : String) : FsPath :=
  if entry = "." then [name] else name :: splitPath entry

/-- Literal text of the generated config template up to the spliced project
mode (creator.go:235-242). -/
def cfgSeg0 : String :=
    "# gocar 项目配置文件\n"
    ++ "# 文档: https://github.com/uselibrary/gocar\n"
    ++ "\n"
    ++ "# 项目配置\n"
    ++ "[project]\n"
    ++ "# 项目模式: \"simple\" (单文件) 或 \"project\" (标准目录结构)\n"
    ++ "# 留空则自动检测\n"
    ++ "mode = \""

/-- Literal text between the spliced mode and the spliced project name
(creator.go:242-245). -/
def cfgSeg1 : String :=
    "\"\n"
    ++ "\n"
    ++ "# 项目名称，留空则使用目录名\n"
    ++ "name = \""

/-- Literal text between the spliced name and the spliced build entry
(creator.go:245-251). -/
def cfgSeg2 : String :=
    "\"\n"
    ++ "\n"
    ++ "# 构建配置\n"
    ++ "[build]\n"
    ++ "# 构建入口路径 (相对于项目根目录)\n"
    ++ "# simple 模式默认为 \".\", project 模式默认为 \"cmd/server\"\n"
    ++ "entry = \""

/-- Literal text between the spliced build entry and the spliced command
section, which is the final splice (creator.go:251-297). -/
def cfgSeg3 : String :=
    "\"\n"
    ++ "\n"
    ++ "# 输出目录\n"
    ++ "output = \"bin\"\n"
    ++ "\n"
    ++ "# 额外的 ldflags，会追加到默认 ldflags 之后\n"
    ++ "# 例如: \"-X main.version=1.0.0\"\n"
    ++ "ldflags = \"\"\n"
    ++ "\n"
    ++ "# 构建标签\n"
    ++ "# tags = [\"jsoniter\", \"sonic\"]\n"
    ++ "\n"
    ++ "# 额外的环境变量\n"
    ++ "# extra_env = [\"GOPROXY=https://goproxy.cn\"]\n"
    ++ "\n"
    ++ "# 运行配置\n"
    ++ "[run]\n"
    ++ "# 运行入口路径，留空则使用 build.entry\n"
    ++ "entry = \"\"\n"
    ++ "\n"
    ++ "# 默认运行参数\n"
    ++ "# args = [\"-config\", \"config.yaml\"]\n"
    ++ "\n"
    ++ "# Debug 构建配置\n"
    ++ "# 使用: gocar build (默认)\n"
    ++ "[profile.debug]\n"
    ++ "# ldflags = \"\"              # Debug 默认无 ldflags\n"
    ++ "# gcflags = \"all=-N -l\"     # 禁用优化，方便调试\n"
    ++ "# trimpath = false          # 保留路径信息\n"
    ++ "# cgo_enabled = true        # 跟随系统默认\n"
    ++ "# race = false              # 竞态检测 (会显著降低性能)\n"
    ++ "\n"
    ++ "# Release 构建配置\n"
    ++ "# 使用: gocar build --release\n"
    ++ "[profile.release]\n"
    ++ "ldflags = \"-s -w\"           # 裁剪符号表和调试信息\n"
    ++ "# gcflags = \"\"              # 编译器参数\n"
    ++ "trimpath = true             # 移除编译路径信息\n"
    ++ "cgo_enabled = false         # 禁用 CGO 以生成静态二进制\n"
    ++ "# race = false              # 竞态检测\n"
    ++ "\n"
    ++ "# 自定义命令\n"
    ++ "# 格式: 命令名 = \"要执行的 shell 命令\"\n"
    ++ "# 使用: gocar <命令名>\n"
    ++ "# 命令会在项目根目录下执行\n"
    ++ "[commands]\n"

/-- Everything of the generated configuration before the command section:
the `fmt.Sprintf` template of creator.go:235-297 with mode, name and the
selected build entry spliced in. -/
def configHead (mode name : String) : String :=
  cfgSeg0 ++ mode ++ cfgSeg1 ++ name ++ cfgSeg2 ++ buildEntry mode ++ cfgSeg3

/-- Embeds `Creator.generateTemplateConfigContent` (creator.go:223-298) for a
given iteration order of the merged command map: the fixed template with
mode, name and build entry spliced in, followed by one rendered line per
command. -/
def generateTemplateConfigContent (mode name : String)
    (commands : List (String × String)) : String :=
  configHead mode name ++ cmdSection commands

/-- Embeds `Creator.createTemplateConfig` (creator.go:203-220): write the
synthesized configuration (over the merged command set) to the fixed
project-local configuration filename at the project root.  The merged map is
rendered in its construction order as one representative iteration order. -/
def createTemplateConfig (name mode : String)
    (tplCommands : List (String × String)) : List Event :=
  [ .writeFile [name, ConfigFileName]
      (generateTemplateConfigContent mode name (mergeCommands tplCommands)) ]

/-- Embeds the extra-directory loop of `Creator.createFromTemplate`
(creator.go:171-180): for each declared directory, create it under the root
and write an empty `.gitkeep` inside it. -/
def extraDirEvents (name : String) (dirs : List String) : List Event :=
  dirs.flatMap (fun d =>
    [ .mkdirAll (name :: splitPath d),
      .writeFile ((name :: splitPath d) ++ [".gitkeep"]) "" ])

/-- Embeds the extra-file loop of `Creator.createFromTemplate`
(creator.go:183-192): for each declared file, create its parent directory and
write the literal content, in the list's order (one iteration order of the
Go map). -/
def extraFileEvents (name : String) (files : List (String × String)) : List Event :=
  files.flatMap (fun pf =>
    [ .mkdirAll ((name :: splitPath pf.1).dropLast),
      .writeFile (name :: splitPath pf.1) pf.2 ])

/-- Embeds `Creator.createFromTemplate` (creator.go:157-200): the base
scaffold for the creator's mode (`simple` → simple scaffold, anything else →
project scaffold), then the template's extra directories, then its extra
files, then the project-local configuration file. -/
def createFromTemplate (name mode : String) (tpl : TemplateConfig) : List Event :=
  (if mode = "simple" then createSimpleProject name else createProjectMode name)
    ++ extraDirEvents name tpl.dirs
    ++ extraFileEvents name tpl.files
    ++ createTemplateConfig name mode tpl.commands

/-- Embeds `Creator.Create` (creator.go:38-64).  It first stats the target
root: any stat outcome other than "does not exist" fails with the
already-exists error and performs nothing.  Otherwise the template path or
the built-in scaffold for the mode runs, and finally `util.InitGit` is
attempted, whose failure (`gitOk = false`) is only a warning: the result is
success either way. -/
def Creator.create (c : Creator) (stat : StatResult) (gitOk : Bool) :
    Except String Unit × List Event :=
  match stat with
  | .notExist =>
    let events :=
      match c.template with
      | some tpl => createFromTemplate c.name c.mode tpl
      | none =>
        if c.mode = "simple" then createSimpleProject c.name
        else createProjectMode c.name
    (.ok (), events ++ [.initGit [c.name] gitOk])
  | _ => (.error ("directory \x27" ++ c.name ++ "\x27 already exists"), [])

/-- A template whose declared base mode is neither of the two built-in modes,
used to exhibit how generation treats unrecognized base modes. -/
def tplWeird : TemplateConfig :=
  { description := "", mode := "weird", dirs := [], files := [], commands := [] }

/-- A template declaring one extra directory, used to exhibit the position of
the git-initialization step relative to the template extras. -/
def tplExtra : TemplateConfig :=
  { description := "", mode := "project", dirs := ["extra"], files := [], commands := [] }

/-! ### Helper lemmas -/

/-- Left cancellation for string append, via the underlying character
lists. -/
theorem string_append_cancel_left {s t u : String} (h : s ++ t = s ++ u) :
    t = u := by
  cases s with | mk sd =>
  cases t with | mk td =>
  cases u with | mk ud =>
  have hd : sd ++ td = sd ++ ud := congrArg String.data h
  exact congrArg String.mk (List.append_cancel_left hd)

/-- Unfolding `List.lookup` on a cons cell with propositional key equality. -/
theorem lookup_cons_pair (p : String × String) (rest : List (String × String))
    (a : String) :
    (p :: rest).lookup a = if a = p.1 then some p.2 else rest.lookup a := by
  obtain ⟨k, v⟩ := p
  by_cases h : a = k
  · simp [List.lookup, h]
  · have hb : (a == k) = false := beq_eq_false_iff_ne.mpr h
    simp [List.lookup, h, hb]

/-- A key absent from an association list's key set looks up to `none`. -/
theorem lookup_eq_none_of_key_not_mem {l : List (String × String)} {a : String}
    (h : a ∉ l.map Prod.fst) : l.lookup a = none := by
  induction l with
  | nil => rfl
  | cons p rest ih =>
    simp only [List.map_cons, List.mem_cons] at h
    push_neg at h
    rw [lookup_cons_pair, if_neg h.1, ih h.2]

/-- Looking up after a Go-map-style update: the updated key maps to the new
value, every other key is unchanged. -/
theorem lookup_insertCmd (m : List (String × String)) (k v a : String) :
    (insertCmd m k v).lookup a = if a = k then some v else m.lookup a := by
  induction m with
  | nil =>
    by_cases h : a = k
    · simp [insertCmd, List.lookup, h]
    · have hb : (a == k) = false := beq_eq_false_iff_ne.mpr h
      simp [insertCmd, List.lookup, h, hb]
  | cons p rest ih =>
    by_cases hp : p.1 = k
    · rw [insertCmd, if_pos hp, lookup_cons_pair, lookup_cons_pair]
      by_cases ha : a = k
      · simp [ha]
      · simp [ha, hp ▸ ha]
    · rw [insertCmd, if_neg hp, lookup_cons_pair, lookup_cons_pair, ih]
      by_cases hap : a = p.1
      · rw [if_pos hap, if_pos hap, if_neg (by rw [hap]; exact hp)]
      · rw [if_neg hap, if_neg hap]

/-- The key set after a Go-map-style update: unchanged when the key was
present, the key appended otherwise. -/
theorem keys_insertCmd (m : List (String × String)) (k v : String) :
    (insertCmd m k v).map Prod.fst =
      if k ∈ m.map Prod.fst then m.map Prod.fst else m.map Prod.fst ++ [k] := by
  induction m with
  | nil => simp [insertCmd]
  | cons p rest ih =>
    by_cases hp : p.1 = k
    · simp [insertCmd, hp]
    · rw [insertCmd, if_neg hp]
      by_cases hk : k ∈ rest.map Prod.fst
      · simp only [List.map_cons, List.mem_cons]
        rw [if_pos (Or.inr hk)]
        simp [ih, hk]
      · simp only [List.map_cons, List.mem_cons]
        rw [if_neg (by push_neg; exact ⟨fun he => hp he.symm, hk⟩)]
        simp [ih, hk]

/-- A Go-map-style update preserves uniqueness of the key set. -/
theorem nodup_keys_insertCmd {m : List (String × String)} (k v : String)
    (h : (m.map Prod.fst).Nodup) : ((insertCmd m k v).map Prod.fst).Nodup := by
  rw [keys_insertCmd]
  by_cases hk : k ∈ m.map Prod.fst
  · simpa [hk] using h
  · rw [if_neg hk]
    simp [List.nodup_append, h, hk]

/-- Folding Go-map-style updates over a template's command list (with unique
keys) looks up as the template entry when present, else as the accumulator
entry. -/
theorem lookup_foldl_insertCmd (tpl : List (String × String)) :
    ∀ (m : List (String × String)) (a : String), (tpl.map Prod.fst).Nodup →
      ((tpl.foldl (fun acc p => insertCmd acc p.1 p.2) m).lookup a)
        = (tpl.lookup a).orElse (fun _ => m.lookup a) := by
  induction tpl with
  | nil => intro m a _; simp
  | cons p rest ih =>
    intro m a hnd
    simp only [List.map_cons, List.nodup_cons] at hnd
    simp only [List.foldl_cons]
    rw [ih _ a hnd.2, lookup_insertCmd, lookup_cons_pair]
    by_cases ha : a = p.1
    · rw [if_pos ha, if_pos ha,
        lookup_eq_none_of_key_not_mem (ha ▸ hnd.1)]
      rfl
    · rw [if_neg ha, if_neg ha]

/-- Folding Go-map-style updates preserves uniqueness of the key set,
whatever the update list. -/
theorem nodup_keys_foldl_insertCmd (tpl : List (String × String)) :
    ∀ m : List (String × String), (m.map Prod.fst).Nodup →
      ((tpl.foldl (fun acc p => insertCmd acc p.1 p.2) m).map Prod.fst).Nodup := by
  induction tpl with
  | nil => intro m h; simpa using h
  | cons p rest ih =>
    intro m h
    simp only [List.foldl_cons]
    exact ih _ (nodup_keys_insertCmd p.1 p.2 h)

/-! ### Claims -/

/-- C1: for the mode tokens `simple` and `project`, resolution yields the
corresponding built-in creator with no template attached, whatever the
registry load produced — in particular a registered template named exactly
`simple` or `project` is never selected. -/
theorem builtin_mode_precedence (name : String)
    (loadResult : Except String GlobalConfig) :
    resolveCreator name "simple" loadResult = .ok (NewCreator name "simple")
    ∧ resolveCreator name "project" loadResult = .ok (NewCreator name "project")
    ∧ (NewCreator name "simple").template = none
    ∧ (NewCreator name "project").template = none :=
  ⟨rfl, rfl, rfl, rfl⟩

/-- C7: when the up-front stat of the target root reports that the path
exists, generation fails with the already-exists error and the event trace is
empty — no directory or file operation is performed. -/
theorem existing_path_fails_without_writes (c : Creator) (gitOk : Bool) :
    Creator.create c .ok gitOk
      = (.error ("directory \x27" ++ c.name ++ "\x27 already exists"), []) :=
  rfl

/-- C10: a stat outcome that is an error other than "does not exist" is
treated exactly like an existing path: the already-exists error is returned,
not an I/O error, and no operation is performed. -/
theorem stat_error_treated_as_occupied (c : Creator) (gitOk : Bool) :
    Creator.create c .otherError gitOk
      = (.error ("directory \x27" ++ c.name ++ "\x27 already exists"), []) :=
  rfl

/-- C8: loading the registry when no configuration file exists at the
well-known path succeeds with the default configuration: zero templates and
license `MIT`, whatever a decode would have produced. -/
theorem missing_config_defaults (home : String)
    (decoded : Except String GlobalConfig) :
    LoadGlobalConfig (some home) .notExist decoded = .ok DefaultGlobalConfig
    ∧ DefaultGlobalConfig.templates = []
    ∧ DefaultGlobalConfig.defaults.license = "MIT" :=
  ⟨rfl, rfl, rfl⟩

/-- C9: built-in mode `simple` performs exactly: root and `bin/` directory
creation, `go mod init` against the root, the entry-point file, the README
and the gitignore (plus the trailing git initialization), and never writes
the project-local configuration file. -/
theorem simple_mode_file_set (name : String) (gitOk : Bool) :
    Creator.create (NewCreator name "simple") .notExist gitOk
      = (.ok (),
         [ Event.mkdirAll [name],
           Event.mkdirAll [name, "bin"],
           Event.runCommandSilent [name] "go" ["mod", "init", name],
           Event.writeFile [name, "main.go"] (SimpleMainTemplate name),
           Event.writeFile [name, "README.md"] (SimpleReadmeTemplate name),
           Event.writeFile [name, ".gitignore"] (GitignoreTemplate name),
           Event.initGit [name] gitOk ])
    ∧ ∀ content, Event.writeFile [name, ConfigFileName] content
        ∉ (Creator.create (NewCreator name "simple") .notExist gitOk).2 := by
  refine ⟨rfl, ?_⟩
  intro content
  simp [Creator.create, NewCreator, createSimpleProject, ConfigFileName]

/-- C4 (amended): in templated generation the base scaffold for the
template's base mode runs first, then the template's extra directories, then
its extra files, then the project-local configuration file, and the (non-
fatal) git initialization is the final event; generation succeeds even when
git initialization fails. -/
theorem template_generation_order (name : String) (tpl : TemplateConfig)
    (gitOk : Bool) :
    Creator.create (NewCreatorWithTemplate name tpl) .notExist gitOk
      = (.ok (),
         (if tpl.mode = "simple" then createSimpleProject name
          else createProjectMode name)
           ++ extraDirEvents name tpl.dirs
           ++ extraFileEvents name tpl.files
           ++ createTemplateConfig name tpl.mode tpl.commands
           ++ [Event.initGit [name] gitOk])
    ∧ (Creator.create (NewCreatorWithTemplate name tpl) .notExist gitOk).2.getLast?
        = some (Event.initGit [name] gitOk) := by
  refine ⟨rfl, ?_⟩
  show (createFromTemplate name tpl.mode tpl ++ [Event.initGit [name] gitOk]).getLast?
      = some (Event.initGit [name] gitOk)
  rw [List.getLast?_concat]

/-- C4 (counterexample): for a concrete template declaring one extra
directory, the git-initialization event does not precede the creation of the
template's extra directory — it comes after all template steps, contradicting
the claim that the base scaffold "including its version-control
initialization" runs before the template extras. -/
theorem git_init_not_before_extras :
    ¬ ((Creator.create (NewCreatorWithTemplate "demo3" tplExtra) .notExist true).2.indexOf
          (Event.initGit ["demo3"] true)
        < (Creator.create (NewCreatorWithTemplate "demo3" tplExtra) .notExist true).2.indexOf
          (Event.mkdirAll ["demo3", "extra"])) := by
  decide

/-- C3 (counterexample): a template whose declared base mode is `weird` —
neither `simple` nor `project` — is accepted: generation succeeds instead of
failing with a configuration error. -/
theorem unknown_base_mode_accepted :
    (Creator.create (NewCreatorWithTemplate "demo1" tplWeird) .notExist true).1
      = .ok () :=
  rfl

/-- C3 (amended): a template base mode other than `simple` is silently
treated as the project layout: generation succeeds, the base scaffold is the
project-mode scaffold, and (when the mode is also not `project`) the
synthesized build entry falls back to `.` — no configuration error is ever
raised for an unrecognized base mode. -/
theorem unknown_base_mode_falls_back_to_project (name : String)
    (tpl : TemplateConfig) (gitOk : Bool) (h : tpl.mode ≠ "simple") :
    (Creator.create (NewCreatorWithTemplate name tpl) .notExist gitOk).1 = .ok ()
    ∧ (Creator.create (NewCreatorWithTemplate name tpl) .notExist gitOk).2
        = createProjectMode name
          ++ extraDirEvents name tpl.dirs
          ++ extraFileEvents name tpl.files
          ++ createTemplateConfig name tpl.mode tpl.commands
          ++ [Event.initGit [name] gitOk]
    ∧ (tpl.mode ≠ "project" → buildEntry tpl.mode = ".") := by
  refine ⟨rfl, ?_, ?_⟩
  · show createFromTemplate name tpl.mode tpl ++ [Event.initGit [name] gitOk] = _
    rw [createFromTemplate, if_neg h]
  · intro h2
    rw [buildEntry, if_neg h2]

/-- Witness for the amended C3 theorem at the concrete template `tplWeird`. -/
theorem unknown_base_mode_falls_back_to_project_witness :
    tplWeird.mode ≠ "simple"
    ∧ (Creator.create (NewCreatorWithTemplate "demo2" tplWeird) .notExist true).1 = .ok ()
    ∧ (Creator.create (NewCreatorWithTemplate "demo2" tplWeird) .notExist true).2
        = createProjectMode "demo2"
          ++ extraDirEvents "demo2" tplWeird.dirs
          ++ extraFileEvents "demo2" tplWeird.files
          ++ createTemplateConfig "demo2" tplWeird.mode tplWeird.commands
          ++ [Event.initGit ["demo2"] true]
    ∧ buildEntry tplWeird.mode = "." := by
  have h := unknown_base_mode_falls_back_to_project "demo2" tplWeird true (by decide)
  exact ⟨by decide, h.1, h.2.1, h.2.2 (by decide)⟩

/-- C5: the synthesized configuration's build entry is `.` for base mode
`simple` and `cmd/server` for base mode `project` — the generated text splits
around exactly that entry value — and in each case the entry names the
directory into which the corresponding scaffold wrote the entry-point
`main.go`. -/
theorem build_entry_matches_scaffold (name : String)
    (commands : List (String × String)) :
    buildEntry "simple" = "."
    ∧ buildEntry "project" = "cmd/server"
    ∧ generateTemplateConfigContent "simple" name commands
        = cfgSeg0 ++ "simple" ++ cfgSeg1 ++ name ++ cfgSeg2 ++ "." ++ cfgSeg3
          ++ cmdSection commands
    ∧ generateTemplateConfigContent "project" name commands
        = cfgSeg0 ++ "project" ++ cfgSeg1 ++ name ++ cfgSeg2 ++ "cmd/server"
          ++ cfgSeg3 ++ cmdSection commands
    ∧ Event.writeFile (entryDirPath name (buildEntry "simple") ++ ["main.go"])
        (SimpleMainTemplate name) ∈ createSimpleProject name
    ∧ Event.writeFile (entryDirPath name (buildEntry "project") ++ ["main.go"])
        (ProjectMainTemplate name) ∈ createProjectMode name := by
  refine ⟨rfl, rfl, rfl, rfl, ?_, ?_⟩
  · show Event.writeFile [name, "main.go"] (SimpleMainTemplate name)
        ∈ createSimpleProject name
    simp [createSimpleProject]
  · show Event.writeFile [name, "cmd", "server", "main.go"]
        (ProjectMainTemplate name) ∈ createProjectMode name
    simp [createProjectMode]

/-- C6: merging a template's command mapping (unique keys) over the built-in
set gives a map with unique keys whose entry for any name is the template's
value when the template declares that name, and the fixed built-in value
otherwise — template commands add new names and override built-in ones
without duplication. -/
theorem command_merge_overlay (tpl : List (String × String)) (k : String)
    (h : (tpl.map Prod.fst).Nodup) :
    (mergeCommands tpl).lookup k
      = (tpl.lookup k).orElse (fun _ => builtinCommands.lookup k)
    ∧ ((mergeCommands tpl).map Prod.fst).Nodup :=
  ⟨lookup_foldl_insertCmd tpl builtinCommands k h,
   nodup_keys_foldl_insertCmd tpl builtinCommands (by decide)⟩

/-- Witness for the C6 theorem: the spec's own two examples, a fresh `dev`
command added next to the untouched built-ins, and a `test` override. -/
theorem command_merge_overlay_witness :
    (([("dev", "X")] : List (String × String)).map Prod.fst).Nodup
    ∧ (mergeCommands [("dev", "X")]).lookup "dev" = some "X"
    ∧ (mergeCommands [("dev", "X")]).lookup "test" = some "go test -v ./..."
    ∧ (mergeCommands [("dev", "X")]).lookup "vet" = some "go vet ./..."
    ∧ ((mergeCommands [("dev", "X")]).map Prod.fst).Nodup
    ∧ (mergeCommands [("test", "Y")]).lookup "test" = some "Y"
    ∧ ((mergeCommands [("test", "Y")]).map Prod.fst).Nodup := by
  have h1 := command_merge_overlay [("dev", "X")] "dev" (by decide)
  have h2 := command_merge_overlay [("dev", "X")] "test" (by decide)
  have h3 := command_merge_overlay [("dev", "X")] "vet" (by decide)
  have h4 := command_merge_overlay [("test", "Y")] "test" (by decide)
  refine ⟨by decide, ?_, ?_, ?_, h1.2, ?_, h4.2⟩
  · rw [h1.1]; decide
  · rw [h2.1]; decide
  · rw [h3.1]; decide
  · rw [h4.1]; decide

/-- C2 (counterexample): even with no template commands at all, two runs that
iterate the merged command map in different orders — here the built-in triad
and its reversal, a permutation of the same map — produce different
configuration texts, so the output is not character-for-character determined
by the inputs. -/
theorem config_content_order_dependent :
    (mergeCommands []).Perm ((mergeCommands []).reverse)
    ∧ generateTemplateConfigContent "simple" "demo" (mergeCommands [])
        ≠ generateTemplateConfigContent "simple" "demo"
            ((mergeCommands []).reverse) := by
  constructor
  · exact (List.reverse_perm _).symm
  · intro h
    have h2 : configHead "simple" "demo" ++ cmdSection (mergeCommands [])
        = configHead "simple" "demo"
          ++ cmdSection ((mergeCommands []).reverse) := h
    have h3 := string_append_cancel_left h2
    exact absurd h3 (by decide)

/-- C2 (amended): the synthesized configuration is determined by the inputs
only up to the iteration order of the merged command map: the text is the
fixed head followed by one line per command in iteration order, and
iteration orders that are permutations of each other yield permutations of
the same command lines (so only the line order inside the commands block can
differ between two runs). -/
theorem config_content_determined_by_order (mode name : String)
    (l1 l2 : List (String × String)) (h : l1.Perm l2) :
    generateTemplateConfigContent mode name l1
      = configHead mode name ++ cmdSection l1
    ∧ (l1.map cmdLine).Perm (l2.map cmdLine) :=
  ⟨rfl, h.map cmdLine⟩

/-- Witness for the amended C2 theorem at two concrete orders of the same
two-command map. -/
theorem config_content_determined_by_order_witness :
    ([("a", "x"), ("b", "y")] : List (String × String)).Perm
      [("b", "y"), ("a", "x")]
    ∧ generateTemplateConfigContent "simple" "demo" [("a", "x"), ("b", "y")]
        = configHead "simple" "demo" ++ cmdSection [("a", "x"), ("b", "y")]
    ∧ (([("a", "x"), ("b", "y")] : List (String × String)).map cmdLine).Perm
        ([("b", "y"), ("a", "x")].map cmdLine) := by
  have hp : ([("a", "x"), ("b", "y")] : List (String × String)).Perm
      [("b", "y"), ("a", "x")] := List.Perm.swap ("b", "y") ("a", "x") []
  have h := config_content_determined_by_order "simple" "demo"
    [("a", "x"), ("b", "y")] [("b", "y"), ("a", "x")] hp
  exact ⟨hp, h.1, h.2⟩
